import Mathlib

/-!
Shallow embedding of the corsair-cpro USB hwmon driver (src/corsair-cpro.c)
and verification of its natural-language specification.

Modelling conventions:
* C `long`/`int` values are `Int`; `u8` buffer bytes are `Nat` (with `< 256`
  bounds where a theorem needs them).
* C truncating division `/` on `long` is `Int.tdiv`; `val >> 8` on a
  possibly-negative `long` is an arithmetic shift, i.e. `Int.fdiv _ 256`;
  conversion of a `long` to `u8` is `Int.emod _ 256`.
* USB transfers are modelled by their outcome codes (`0` = success, a
  nonzero/negative errno otherwise) passed in as parameters, and the
  response buffer after an exchange is a byte function `Nat → Nat`.
* `kzalloc` success is a `Bool` parameter.
* Lock usage is recorded as an event trace (`lock`/`send`/`recv`/`unlock`).
-/

namespace CorsairCPro

/-- Linux errno values used by the driver (returned negated). -/
def EINVAL : Int := 22

def ENOMEM : Int := 12

def ENODATA : Int := 61

def EIO : Int := 5

/-- Control opcodes from the top of corsair-cpro.c. -/
def CTL_GET_TMP_CFG : Nat := 0x10

def CTL_GET_TMP : Nat := 0x11

def CTL_GET_FAN_RPM : Nat := 0x21

def CTL_SET_FAN_FPWM : Nat := 0x23

/-- Mutable driver state from `struct ccp_device`: the cached pwm values and
the fan-enable flags (the `temp` and `fan_mode` arrays are never read by the
operations under verification, so they are omitted). Arrays are modelled as
total functions from the channel index, mirroring the unchecked C indexing. -/
structure CcpState where
  pwm : Nat → Int
  fan_enable : Nat → Int

/-- State right after `ccp_probe`: `kzalloc` zeroes the struct, then the six
fan_enable entries are set to 1 (src lines 423-428). -/
def probeState : CcpState :=
  { pwm := fun _ => 0
    fan_enable := fun i => if i < 6 then 1 else 0 }

/-- Events observable on the shared transport/lock, used to express which
USB transfers happen and whether they happen under the spinlock. -/
inductive Event where
  | lock
  | unlock
  | send
  | recv
deriving DecidableEq, Repr

/-- `lockedSends t d = true` iff every `send` in trace `t` happens at
positive lock depth, starting from depth `d`. -/
def lockedSends : List Event → Nat → Bool
  | [], _ => true
  | Event.lock :: t, d => lockedSends t (d + 1)
  | Event.unlock :: t, d => lockedSends t (d - 1)
  | Event.send :: t, d => decide (0 < d) && lockedSends t d
  | Event.recv :: t, d => lockedSends t d

/-- All sends in the trace occur while the lock is held. -/
def sendsUnderLock (t : List Event) : Prop := lockedSends t 0 = true

instance (t : List Event) : Decidable (sendsUnderLock t) := by
  unfold sendsUnderLock; infer_instance

/-- Result of `get_usb_data` (src lines 75-108): the returned code, whether
the receive transfer was attempted, and the lock/transfer trace. -/
structure UsbResult where
  ret : Int
  recvAttempted : Bool
  trace : List Event
deriving DecidableEq, Repr

/-- Embedding of `get_usb_data` (src lines 75-108). `sendRet` and `recvRet`
are the outcomes of the two `usb_bulk_msg` calls. The function takes the
spinlock, sends, and on a send failure (`if(ret) goto exit`) skips the
receive; in every case it falls to `exit`, unlocks, and executes
`return 0;` (line 107), so the returned code is always 0. -/
def get_usb_data (sendRet recvRet : Int) : UsbResult :=
  if sendRet ≠ 0 then
    { ret := 0, recvAttempted := false
      trace := [Event.lock, Event.send, Event.unlock] }
  else
    -- receive attempted; a receive failure also just falls to exit
    { ret := 0, recvAttempted := true
      trace := [Event.lock, Event.send, Event.recv, Event.unlock] }

/-- The percentage conversion inside `set_pwm` (src lines 124-127):
`val <<= 8; val /= 255; val *= 100; val >>= 8` on a C `long`, i.e.
truncating division by 255 and arithmetic right shift by 8. -/
def convertPWM (val : Int) : Int :=
  Int.fdiv (Int.tdiv (val * 256) 255 * 100) 256

/-- Modelled from the spec: the conversion the spec prescribes,
rounding-to-nearest `round(value * 100 / 255)`. Used only to compare the
code's `convertPWM` against the spec's words. -/
def specRoundConvert (val : Nat) : Nat :=
  (val * 100 + 127) / 255

/-- Result of `set_pwm` (src lines 110-158): return code, updated device
state, the frame bytes handed to `usb_bulk_msg` (`none` when no transfer was
attempted), and the lock/transfer trace. -/
structure SetPwmResult where
  ret : Int
  state : CcpState
  sent : Option (List Int)
  trace : List Event

/-- Embedding of `set_pwm` (src lines 110-158). Rejects only `val > 255`
with `-EINVAL`; converts, caches the converted value in `pwm[channel]`
(line 129, before the allocation), then allocates and sends the frame
`[CTL_SET_FAN_FPWM, channel, val]` directly via `usb_bulk_msg` — without
taking the spinlock. On send failure it returns `ret <= 0 ? ret : -EIO`;
on success it returns 0. -/
def set_pwm (ccp : CcpState) (channel : Nat) (val : Int) (alloc : Bool)
    (sendRet : Int) : SetPwmResult :=
  if 255 < val then
    { ret := -EINVAL, state := ccp, sent := none, trace := [] }
  else
    let v := convertPWM val
    let ccp' : CcpState :=
      { ccp with pwm := fun i => if i = channel then v else ccp.pwm i }
    if alloc = false then
      { ret := -ENOMEM, state := ccp', sent := none, trace := [] }
    else
      let frame : List Int :=
        [(CTL_SET_FAN_FPWM : Int), ((channel % 256 : Nat) : Int),
         Int.emod v 256]
      if sendRet ≠ 0 then
        { ret := if sendRet ≤ 0 then sendRet else - EIO, state := ccp'
          sent := some frame, trace := [Event.send] }
      else
        { ret := 0, state := ccp', sent := some frame
          trace := [Event.send] }

/-- Result of `get_temp_or_rpm` (src lines 198-221): return code, the value
written through `*val`, the number of send/receive exchanges performed, and
the (opcode, channel) pair of the sent frame when one was sent. -/
structure GtrResult where
  ret : Int
  val : Int
  exchanges : Nat
  sent : Option (Nat × Nat)
deriving DecidableEq, Repr

/-- Embedding of `get_temp_or_rpm` (src lines 198-221). On allocation
failure it returns `-ENOMEM` leaving `*val` untouched. Otherwise it sends
`[ctlrequest, channel]` through `get_usb_data` (whose return value it
ignores) and unconditionally computes
`*val = (buffer[1] << 8) + buffer[2]` from the response buffer, returning
`ret <= 0 ? ret : -EIO` with `ret` still 0, i.e. 0. -/
def get_temp_or_rpm (ctlrequest : Nat) (channel : Nat) (alloc : Bool)
    (resp : Nat → Nat) (valIn : Int) : GtrResult :=
  if alloc = false then
    { ret := -ENOMEM, val := valIn, exchanges := 0, sent := none }
  else
    { ret := 0, val := ((resp 1 <<< 8) + resp 2 : Nat), exchanges := 1
      sent := some (ctlrequest, channel % 256) }

/-- The hwmon sensor types the driver dispatches on in `ccp_read`,
`ccp_read_string` and `ccp_write`. `other` stands for every type the driver
does not handle (falling to the `default:` arm). -/
inductive HSType where
  | hwmon_temp
  | hwmon_fan
  | hwmon_pwm
  | other
deriving DecidableEq, Repr

/-- The hwmon attributes the driver dispatches on. `other` stands for every
attribute not handled by the inner `switch` of the corresponding type. -/
inductive HSAttr where
  | temp_input
  | fan_input
  | fan_enable
  | pwm_input
  | pwm_enable
  | other
deriving DecidableEq, Repr

/-- Result of `ccp_read` (src lines 299-353): returned error code, the value
left in `*val`, and the number of send/receive exchanges performed. -/
structure CcpReadResult where
  err : Int
  val : Int
  exchanges : Nat
deriving DecidableEq, Repr

/-- Embedding of `ccp_read` (src lines 299-353). `valIn` is the value behind
the caller's `*val` pointer before the call (visible when nothing writes it).
Faithful details: the return value of `get_temp_or_rpm` is ignored in both
the temp and the fan branch; the fan branch returns `-ENODATA` directly when
`fan_enable[channel] != 1`; and the `case hwmon_pwm:` arm has no `break`
before `default:` (line 349), so after setting `*val` it falls through and
`err` becomes `-EINVAL`. -/
def ccp_read (ccp : CcpState) (ty : HSType) (attr : HSAttr) (channel : Nat)
    (alloc : Bool) (resp : Nat → Nat) (valIn : Int) : CcpReadResult :=
  match ty, attr with
  | HSType.hwmon_temp, HSAttr.temp_input =>
      let g := get_temp_or_rpm CTL_GET_TMP channel alloc resp valIn
      { err := 0, val := g.val * 10, exchanges := g.exchanges }
  | HSType.hwmon_temp, _ => { err := -EINVAL, val := valIn, exchanges := 0 }
  | HSType.hwmon_fan, HSAttr.fan_input =>
      if ccp.fan_enable channel = 1 then
        let g := get_temp_or_rpm CTL_GET_FAN_RPM channel alloc resp valIn
        { err := 0, val := g.val, exchanges := g.exchanges }
      else
        { err := -ENODATA, val := valIn, exchanges := 0 }
  | HSType.hwmon_fan, HSAttr.fan_enable =>
      { err := 0, val := ccp.fan_enable channel, exchanges := 0 }
  | HSType.hwmon_fan, _ => { err := -EINVAL, val := valIn, exchanges := 0 }
  | HSType.hwmon_pwm, HSAttr.pwm_input =>
      -- *val = ccp->pwm[channel], then fall-through to default: err = -EINVAL
      { err := -EINVAL, val := ccp.pwm channel, exchanges := 0 }
  | HSType.hwmon_pwm, HSAttr.pwm_enable =>
      -- *val = 1, then the same fall-through to default
      { err := -EINVAL, val := 1, exchanges := 0 }
  | HSType.hwmon_pwm, _ => { err := -EINVAL, val := valIn, exchanges := 0 }
  | HSType.other, _ => { err := -EINVAL, val := valIn, exchanges := 0 }

/-- Embedding of `ccp_read_string` (src lines 263-297): for `hwmon_fan` the
label is the fixed string `FanN` for channels 0-5 and `-EINVAL` otherwise;
for `hwmon_temp` it returns 0 leaving the string untouched (`none`); every
other type yields `-EINVAL`. No device state or discovery data is consulted. -/
def ccp_read_string (ty : HSType) (channel : Nat) : Int × Option String :=
  match ty with
  | HSType.hwmon_fan =>
      match channel with
      | 0 => (0, some "Fan1")
      | 1 => (0, some "Fan2")
      | 2 => (0, some "Fan3")
      | 3 => (0, some "Fan4")
      | 4 => (0, some "Fan5")
      | 5 => (0, some "Fan6")
      | _ => (-EINVAL, none)
  | HSType.hwmon_temp => (0, none)
  | _ => (-EINVAL, none)

/-- Embedding of `get_fan_mode`'s mode decoding (src lines 160-196): after
the `0x20` exchange, `mode = buffer[channel+1]` is mapped to a description;
an unrecognized code leaves `*mode_desc` unset (`none`) and only logs. -/
def get_fan_mode_desc (resp : Nat → Nat) (channel : Nat) : Option String :=
  match resp (channel + 1) with
  | 0 => some "Auto/Disconnect"
  | 1 => some "3 Pin"
  | 2 => some "4 Pin"
  | _ => none

/-- `set_pwm` followed by `ccp_read` of `pwm_input` on the same channel: the
facade round trip behind writing and reading the fan power. The read
consults only the cached `pwm` array. -/
def setThenReadPwm (ccp : CcpState) (channel : Nat) (val : Int)
    (alloc : Bool) (sendRet : Int) : CcpReadResult :=
  let w := set_pwm ccp channel val alloc sendRet
  ccp_read w.state HSType.hwmon_pwm HSAttr.pwm_input channel true
    (fun _ => 0) 0

/-- All-zero device state (fresh `kzalloc` before the probe enables fans). -/
def zeroState : CcpState :=
  { pwm := fun _ => 0, fan_enable := fun _ => 0 }

/-- The response buffer of the spec's end-to-end temperature scenario:
bytes `[0x07, 0x00, 0x19]`. -/
def exampleTempResp : Nat → Nat :=
  fun i => if i = 0 then 0x07 else if i = 1 then 0x00 else
    if i = 2 then 0x19 else 0

/-- The fan-connectivity discovery response of the spec's end-to-end label
scenario: bytes `[0x00, 1, 1, 0, 2, 0, 0]`. -/
def exampleDiscovery : Nat → Nat :=
  fun i => List.getD [0, 1, 1, 0, 2, 0, 0] i 0

/-- For `val ≤ 255`, `set_pwm` caches the converted value in `pwm[channel]`
no matter how the allocation and the send turn out (the cache write at
src line 129 precedes both). -/
theorem set_pwm_state_pwm (ccp : CcpState) (ch : Nat) (v : Int)
    (alloc : Bool) (sr : Int) (hv : v ≤ 255) :
    (set_pwm ccp ch v alloc sr).state.pwm ch = convertPWM v := by
  unfold set_pwm
  rw [if_neg (not_lt.mpr hv)]
  cases alloc <;> simp <;> split <;> simp

/-- For `val ≤ 255` with a successful allocation, `set_pwm` performs exactly
one send, not bracketed by any lock event. -/
theorem set_pwm_trace (ccp : CcpState) (ch : Nat) (v : Int) (sr : Int)
    (hv : v ≤ 255) :
    (set_pwm ccp ch v true sr).trace = [Event.send] := by
  unfold set_pwm
  rw [if_neg (not_lt.mpr hv)]
  simp only [Bool.true_eq_false, if_false]
  split <;> rfl

/-- C1 counterexample: `set_fan_power(0, 255)` followed by
`read_fan_power(0)` does not return 255 with success. The read leaves the
converted percentage 100 in `*val` and returns `-EINVAL` (the
`case hwmon_pwm:` fall-through), refuting the claimed round trip at the
concrete input channel 0, value 255. -/
theorem C1_roundtrip_counterexample :
    (setThenReadPwm probeState 0 255 true 0).val = 100 ∧
    (setThenReadPwm probeState 0 255 true 0).err = -EINVAL ∧
    ¬ ((setThenReadPwm probeState 0 255 true 0).val = 255 ∧
       (setThenReadPwm probeState 0 255 true 0).err = 0) := by
  decide

/-- C1 (amended): for every channel and every value `v ≤ 255`,
`set_fan_power(i, v)` followed by `read_fan_power(i)` yields the
post-conversion percentage `convertPWM v` in `*val` — not the original `v` —
with return code `-EINVAL` from the missing `break`, and the read itself
performs no transaction; this is independent of the allocation and
transport outcome of the write. -/
theorem C1_roundtrip_returns_converted (ccp : CcpState) (ch : Nat) (v : Int)
    (alloc : Bool) (sr : Int) (hv : v ≤ 255) :
    (setThenReadPwm ccp ch v alloc sr).val = convertPWM v ∧
    (setThenReadPwm ccp ch v alloc sr).err = -EINVAL ∧
    (setThenReadPwm ccp ch v alloc sr).exchanges = 0 :=
  ⟨set_pwm_state_pwm ccp ch v alloc sr hv, rfl, rfl⟩

/-- C1 witness: the amended round trip at channel 3, value 42, with a failed
send (`-110`): the cache still ends up at `convertPWM 42 = 16`. -/
theorem C1_roundtrip_returns_converted_witness :
    (setThenReadPwm probeState 3 42 true (-110)).val = convertPWM 42 ∧
    (setThenReadPwm probeState 3 42 true (-110)).err = -EINVAL ∧
    (setThenReadPwm probeState 3 42 true (-110)).exchanges = 0 :=
  C1_roundtrip_returns_converted probeState 3 42 true (-110) (by decide)

/-- C2 counterexample: the code's conversion is not rounding-to-nearest.
At input 130, the code computes 50 while `round(130 * 100 / 255) = 51`. -/
theorem C2_convert_not_round :
    convertPWM 130 = 50 ∧ specRoundConvert 130 = 51 ∧
    convertPWM 130 ≠ ((specRoundConvert 130 : Nat) : Int) := by
  decide

set_option maxRecDepth 4000 in
/-- C2 (amended): the conversion truncates rather than rounds: for every
`v < 256` the result lies in `[0, 100]`, with `convertPWM 0 = 0`,
`convertPWM 128 = 50` and `convertPWM 255 = 100` (these three agree with
rounding, but e.g. input 130 does not). -/
theorem C2_convert_truncates (v : Nat) (h : v < 256) :
    (0 ≤ convertPWM v ∧ convertPWM v ≤ 100) ∧
    convertPWM 0 = 0 ∧ convertPWM 128 = 50 ∧ convertPWM 255 = 100 := by
  revert v
  decide

/-- C2 witness: the amended conversion bounds at the concrete input 130. -/
theorem C2_convert_truncates_witness :
    130 < 256 ∧
    ((0 ≤ convertPWM 130 ∧ convertPWM 130 ≤ 100) ∧
     convertPWM 0 = 0 ∧ convertPWM 128 = 50 ∧ convertPWM 255 = 100) :=
  ⟨by decide, C2_convert_truncates 130 (by decide)⟩

/-- C3: the transport exchange never reports failure. At the failing input
(send outcome `-110`, i.e. a timeout) `get_usb_data` still returns 0, and in
fact it returns 0 for every combination of send and receive outcomes — the
final `return 0;` at src line 107 is reached on every path, and the response
status byte is never examined anywhere in the function. Its caller
`get_fan_mode` (src line 176) assigns and propagates this return value,
expecting real error codes, which the function never produces. -/
theorem C3_exchange_always_returns_zero :
    (get_usb_data (-110) 0).ret = 0 ∧
    ∀ s r : Int, (get_usb_data s r).ret = 0 := by
  refine ⟨by decide, fun s r => ?_⟩
  unfold get_usb_data
  split <;> rfl

/-- C4 counterexample: an execution of the transport exchange in which the
send fails (outcome `-110`) and the receive is not attempted — the
`if(ret) goto exit` at src line 89 jumps past the receive. -/
theorem C4_recv_skipped_on_send_failure :
    (get_usb_data (-110) 0).recvAttempted = false := by
  decide

/-- C4 (amended): the receive half of the exchange is attempted exactly when
the send half succeeded; a failed send skips the receive. -/
theorem C4_recv_iff_send_ok (s r : Int) :
    (get_usb_data s r).recvAttempted = true ↔ s = 0 := by
  unfold get_usb_data
  split <;> simp_all

/-- C5 counterexample: `set_pwm` (the transaction behind `set_fan_power`)
does issue a send — at channel 0, value 100, with a working allocation and
transport — but its trace holds no lock event, so its send happens outside
the channel lock. -/
theorem C5_set_pwm_sends_unlocked :
    (set_pwm probeState 0 100 true 0).sent.isSome = true ∧
    ¬ sendsUnderLock (set_pwm probeState 0 100 true 0).trace := by
  decide

/-- C5 (amended): only `get_usb_data` brackets its exchange in the spinlock;
`set_pwm` performs its send with no lock held at all (for every state,
channel, value `v ≤ 255` and send outcome). -/
theorem C5_only_get_usb_data_locks :
    (∀ s r : Int, sendsUnderLock (get_usb_data s r).trace) ∧
    (∀ (ccp : CcpState) (ch : Nat) (v sr : Int), v ≤ 255 →
      ¬ sendsUnderLock (set_pwm ccp ch v true sr).trace) := by
  constructor
  · intro s r
    unfold get_usb_data
    split <;> decide
  · intro ccp ch v sr hv
    rw [sendsUnderLock, set_pwm_trace ccp ch v sr hv]
    decide

/-- C5 witness: the amended statement at concrete inputs — the locked
exchange of `get_usb_data` with a failed send, and the unlocked send of
`set_pwm` at channel 0, value 100. -/
theorem C5_only_get_usb_data_locks_witness :
    sendsUnderLock (get_usb_data (-110) 0).trace ∧
    ¬ sendsUnderLock (set_pwm probeState 0 100 true 0).trace :=
  ⟨C5_only_get_usb_data_locks.1 (-110) 0,
   C5_only_get_usb_data_locks.2 probeState 0 100 0 (by decide)⟩

/-- C6 counterexample: the negative fan power `-1` at channel 0 is not
rejected — `set_pwm` returns 0 (success) and forwards a frame to the device
(with the converted value wrapped to byte 255); likewise the out-of-range
temperature channel 9 is forwarded by `get_temp_or_rpm` inside its frame
rather than rejected with `-EINVAL`. -/
theorem C6_invalid_inputs_reach_device :
    (set_pwm probeState 0 (-1) true 0).ret = 0 ∧
    (set_pwm probeState 0 (-1) true 0).sent =
      some [(CTL_SET_FAN_FPWM : Int), 0, 255] ∧
    (get_temp_or_rpm CTL_GET_TMP 9 true (fun _ => 0) 0).sent =
      some (CTL_GET_TMP, 9) ∧
    (get_temp_or_rpm CTL_GET_TMP 9 true (fun _ => 0) 0).ret ≠ -EINVAL := by
  decide

/-- C6 (amended): the only input validation before a transaction is
`set_pwm`'s `val > 255` check, rejected with `-EINVAL`, no state change and
no send; every `val ≤ 255` — negative values included — is converted and
sent, and `get_temp_or_rpm` sends the frame `[opcode, channel]` for every
channel with no validation whatsoever. -/
theorem C6_only_upper_bound_checked (ccp : CcpState) (ch : Nat)
    (v sr : Int) (resp : Nat → Nat) (valIn : Int) :
    (255 < v → set_pwm ccp ch v true sr =
      { ret := -EINVAL, state := ccp, sent := none, trace := [] }) ∧
    (v ≤ 255 → (set_pwm ccp ch v true sr).sent =
      some [(CTL_SET_FAN_FPWM : Int), ((ch % 256 : Nat) : Int),
            Int.emod (convertPWM v) 256]) ∧
    (get_temp_or_rpm CTL_GET_TMP ch true resp valIn).sent =
      some (CTL_GET_TMP, ch % 256) := by
  refine ⟨fun h => ?_, fun h => ?_, rfl⟩
  · unfold set_pwm
    rw [if_pos h]
  · unfold set_pwm
    rw [if_neg (not_lt.mpr h)]
    simp only [Bool.true_eq_false, if_false]
    split <;> rfl

/-- C6 witness: the amended statement at channel 0, value `-1`: the
transaction is sent with the converted byte rather than rejected. -/
theorem C6_only_upper_bound_checked_witness :
    (set_pwm probeState 0 (-1) true 0).sent =
      some [(CTL_SET_FAN_FPWM : Int), ((0 % 256 : Nat) : Int),
            Int.emod (convertPWM (-1)) 256] :=
  (C6_only_upper_bound_checked probeState 0 (-1) 0 (fun _ => 0) 0).2.1
    (by decide)

/-- C7 counterexample: a temperature read always performs a transport
exchange and reports success — concretely at channel 0 on the fresh
all-zero state (the driver holds no temperature presence flags, so there
is no state under which the claimed `NoData`/zero-transaction behaviour
occurs). -/
theorem C7_temp_read_always_exchanges :
    (ccp_read zeroState HSType.hwmon_temp HSAttr.temp_input 0 true
      (fun _ => 0) 0).exchanges = 1 ∧
    (ccp_read zeroState HSType.hwmon_temp HSAttr.temp_input 0 true
      (fun _ => 0) 0).err ≠ -ENODATA := by
  decide

/-- C7 (amended): a fan read with `fan_enable[channel] != 1` returns
`-ENODATA` with zero exchanges and an untouched `*val`; temperature reads
have no presence guard and always perform exactly one exchange (given a
successful allocation) and never return `-ENODATA`. -/
theorem C7_disabled_fan_no_exchange (ccp : CcpState) (ch : Nat)
    (alloc : Bool) (resp : Nat → Nat) (valIn : Int)
    (h : ccp.fan_enable ch ≠ 1) :
    ccp_read ccp HSType.hwmon_fan HSAttr.fan_input ch alloc resp valIn =
      { err := -ENODATA, val := valIn, exchanges := 0 } ∧
    ((ccp_read ccp HSType.hwmon_temp HSAttr.temp_input ch true resp
        valIn).exchanges = 1 ∧
     (ccp_read ccp HSType.hwmon_temp HSAttr.temp_input ch true resp
        valIn).err ≠ -ENODATA) := by
  refine ⟨?_, rfl, ?_⟩
  · unfold ccp_read
    rw [if_neg h]
  · show (0 : Int) ≠ -ENODATA
    decide

/-- C7 witness: the amended statement at channel 2 of the all-zero state,
whose `fan_enable` entries are all 0. -/
theorem C7_disabled_fan_no_exchange_witness :
    zeroState.fan_enable 2 ≠ 1 ∧
    (ccp_read zeroState HSType.hwmon_fan HSAttr.fan_input 2 true
        (fun _ => 0) 7 =
      { err := -ENODATA, val := 7, exchanges := 0 } ∧
    ((ccp_read zeroState HSType.hwmon_temp HSAttr.temp_input 2 true
        (fun _ => 0) 7).exchanges = 1 ∧
     (ccp_read zeroState HSType.hwmon_temp HSAttr.temp_input 2 true
        (fun _ => 0) 7).err ≠ -ENODATA)) :=
  ⟨by decide,
   C7_disabled_fan_no_exchange zeroState 2 true (fun _ => 0) 7 (by decide)⟩

/-- C8: temperature reads scale exactly by 10 with no rounding: for every
response buffer the reported value is `10 * (buffer[1] * 256 + buffer[2])`
(bytes 1 and 2 assembled big-endian; this covers in particular every
response with status byte 0), and the spec's end-to-end scenario — response
bytes `[0x07, 0x00, 0x19]` on channel 2 — yields 250 centi-degrees. -/
theorem C8_temp_scaling (ccp : CcpState) (ch : Nat) (resp : Nat → Nat)
    (valIn : Int) :
    (ccp_read ccp HSType.hwmon_temp HSAttr.temp_input ch true resp
        valIn).val = 10 * ((resp 1 * 256 + resp 2 : Nat) : Int) ∧
    (ccp_read probeState HSType.hwmon_temp HSAttr.temp_input 2 true
        exampleTempResp 0).val = 250 := by
  refine ⟨?_, by decide⟩
  show (((resp 1 <<< 8) + resp 2 : Nat) : Int) * 10 = _
  simp only [Nat.shiftLeft_eq]
  push_cast
  ring

/-- C9 counterexample: the fan label for channel 0 is the fixed string
"Fan1", not the claimed discovery-derived "fan1 3pin"; after probe the
fan_enable entry for channel 2 is 1 even though the claimed discovery
response marks it absent; and an unrecognized connector code (3) yields no
description at all instead of an "other" label. -/
theorem C9_labels_counterexample :
    (ccp_read_string HSType.hwmon_fan 0).2 = some "Fan1" ∧
    some "Fan1" ≠ some "fan1 3pin" ∧
    probeState.fan_enable 2 = 1 ∧
    get_fan_mode_desc (fun _ => 3) 0 = none := by
  decide

/-- C9 (amended): `ccp_read_string` returns the fixed labels "Fan1".."Fan6"
for channels 0-5 (and `-EINVAL` beyond) without consulting any discovery
data; the probe sets all six fan_enable flags to 1 unconditionally; and the
separate `get_fan_mode` decoder maps the spec's discovery response
`[0x00,1,1,0,2,0,0]` to "3 Pin"/"3 Pin"/"Auto-Disconnect"/"4 Pin"/
"Auto-Disconnect"/"Auto-Disconnect" for channels 0-5, leaving the
description unset for an unrecognized code. -/
theorem C9_labels_fixed :
    (ccp_read_string HSType.hwmon_fan 0 = (0, some "Fan1") ∧
     ccp_read_string HSType.hwmon_fan 1 = (0, some "Fan2") ∧
     ccp_read_string HSType.hwmon_fan 2 = (0, some "Fan3") ∧
     ccp_read_string HSType.hwmon_fan 3 = (0, some "Fan4") ∧
     ccp_read_string HSType.hwmon_fan 4 = (0, some "Fan5") ∧
     ccp_read_string HSType.hwmon_fan 5 = (0, some "Fan6") ∧
     ccp_read_string HSType.hwmon_fan 6 = (-EINVAL, none)) ∧
    (probeState.fan_enable 0 = 1 ∧ probeState.fan_enable 1 = 1 ∧
     probeState.fan_enable 2 = 1 ∧ probeState.fan_enable 3 = 1 ∧
     probeState.fan_enable 4 = 1 ∧ probeState.fan_enable 5 = 1) ∧
    (get_fan_mode_desc exampleDiscovery 0 = some "3 Pin" ∧
     get_fan_mode_desc exampleDiscovery 1 = some "3 Pin" ∧
     get_fan_mode_desc exampleDiscovery 2 = some "Auto/Disconnect" ∧
     get_fan_mode_desc exampleDiscovery 3 = some "4 Pin" ∧
     get_fan_mode_desc exampleDiscovery 4 = some "Auto/Disconnect" ∧
     get_fan_mode_desc exampleDiscovery 5 = some "Auto/Disconnect" ∧
     get_fan_mode_desc (fun _ => 3) 0 = none) := by
  decide

/-- C10: temperature reads, and fan rpm reads with the enable flag at 1,
always report success: `ccp_read` ignores `get_temp_or_rpm`'s return value,
so even with a failed allocation the caller gets return code 0 — together
with the stale `*val` contents scaled by 10 in the temperature case. -/
theorem C10_reads_ignore_transport_errors (ccp : CcpState) (ch : Nat)
    (alloc : Bool) (resp : Nat → Nat) (valIn : Int) :
    (ccp_read ccp HSType.hwmon_temp HSAttr.temp_input ch alloc resp
        valIn).err = 0 ∧
    (ccp_read ccp HSType.hwmon_temp HSAttr.temp_input ch false resp
        valIn).val = valIn * 10 ∧
    (ccp.fan_enable ch = 1 →
      (ccp_read ccp HSType.hwmon_fan HSAttr.fan_input ch alloc resp
          valIn).err = 0) := by
  refine ⟨rfl, rfl, fun h => ?_⟩
  unfold ccp_read
  rw [if_pos h]

/-- C10 witness: both successful-looking reads at channel 0 of the probed
state (all fans enabled), with a failed allocation and stale `*val = 7`. -/
theorem C10_reads_ignore_transport_errors_witness :
    ((ccp_read probeState HSType.hwmon_temp HSAttr.temp_input 0 false
        (fun _ => 0) 7).err = 0 ∧
     (ccp_read probeState HSType.hwmon_temp HSAttr.temp_input 0 false
        (fun _ => 0) 7).val = 7 * 10 ∧
     (ccp_read probeState HSType.hwmon_fan HSAttr.fan_input 0 false
        (fun _ => 0) 7).err = 0) :=
  ⟨(C10_reads_ignore_transport_errors probeState 0 false (fun _ => 0) 7).1,
   (C10_reads_ignore_transport_errors probeState 0 false (fun _ => 0) 7).2.1,
   (C10_reads_ignore_transport_errors probeState 0 false (fun _ => 0) 7).2.2
     (by decide)⟩

end CorsairCPro
